import Mathlib

/-!
Verification of the Focus_Area overlay editor (src/focus_area.py).

The development shallowly embeds the interactive-rectangle-editor core of the
program: the hit-test and resize geometry of `FocusArea` (get_resize_mode,
on_drag, update_handle_position), the canvas draw-gesture and opacity handlers
of `Focus_AreaWindow` (on_canvas_press/drag/release, on_shift_press/release,
on_pause_shortcut, toggle_pause, set_transparent_for_editing, update_opacity),
and the JSON config persistence (save_config / load_config).

Coordinates and opacities are modelled as rationals (the Python floats in the
source only ever hold values produced by the arithmetic that is embedded here;
0.382 is taken exactly). Tkinter canvas items are modelled by the rectangle
coordinates they carry; host-window effects (alpha, withdraw, deiconify,
lift, focus) are modelled as fields of the editor state.
-/

namespace FocusAreaSpec

/-! ## Geometry: rectangles and the FocusArea hit test -/

/-- An axis-aligned rectangle, the coordinates a canvas rectangle item carries
(`canvas.coords(rect_id) = [x1, y1, x2, y2]`). -/
structure Rect where
  x1 : ℚ
  y1 : ℚ
  x2 : ℚ
  y2 : ℚ
deriving DecidableEq, Repr

/-- `FocusArea.MIN_SIZE` (src/focus_area.py line 191). -/
def MIN_SIZE : ℚ := 10

/-- `self.resize_handle_size = 10` (line 234). -/
def resize_handle_size : ℚ := 10

/-- `self.move_handle_size = 8` (line 214). -/
def move_handle_size : ℚ := 8

/-- Python membership test `c in mode` on a string of mode letters. -/
def pyInStr (c : Char) (m : String) : Bool := m.data.contains c

/-- `FocusArea.get_resize_mode` (lines 254-295): classify a pointer position
against a rectangle.  The move-handle zone around the golden-ratio point on
the left edge is checked first, then corners, then single edges; anywhere
else inside returns "move". -/
def get_resize_mode (r : Rect) (event_x event_y : ℚ) : String :=
  let height := r.y2 - r.y1
  let handle_y := r.y1 + height * 0.382
  let move_handle_buffer : ℚ := 4
  if |event_x - r.x1| < resize_handle_size + 5 ∧
      handle_y - move_handle_size - move_handle_buffer ≤ event_y ∧
      event_y ≤ handle_y + move_handle_size + move_handle_buffer then
    "move"
  else
    let handle := resize_handle_size
    let near_left := |event_x - r.x1| < handle
    let near_right := |event_x - r.x2| < handle
    let near_top := |event_y - r.y1| < handle
    let near_bottom := |event_y - r.y2| < handle
    if near_top ∧ near_left then "nw"
    else if near_top ∧ near_right then "ne"
    else if near_bottom ∧ near_left then "sw"
    else if near_bottom ∧ near_right then "se"
    else if near_top then "n"
    else if near_bottom then "s"
    else if near_left then "w"
    else if near_right then "e"
    else "move"

/-- The interaction state of one `FocusArea`: its rectangle coordinates, the
centre of its move handle (the oval item), the drag anchor, and the
dragging flag and mode set by `on_press`. -/
structure FAState where
  bounds : Rect
  handle_x : ℚ
  handle_y : ℚ
  drag_start_x : ℚ
  drag_start_y : ℚ
  is_dragging : Bool
  resize_mode : Option String
deriving DecidableEq, Repr

/-- `FocusArea.on_drag` (lines 389-423).  A "move" drag translates the
rectangle (only the rectangle: the source moves `rect_id` alone in this
branch) and updates the anchor.  A resize drag applies the pointer to the
edges named by the mode letters and commits, repositioning the move handle
(`update_handle_position`, lines 431-446) and updating the anchor, only when
both the new width and the new height are at least `MIN_SIZE`; otherwise the
whole step does nothing.  The Python guard `elif self.resize_mode:` is false
for the empty string, which is modelled by the explicit `m = ""` test. -/
def fa_on_drag (s : FAState) (event_x event_y : ℚ) : FAState :=
  if s.is_dragging = false then s
  else
    match s.resize_mode with
    | none => s
    | some m =>
      if m = "move" then
        let dx := event_x - s.drag_start_x
        let dy := event_y - s.drag_start_y
        { s with
          bounds := ⟨s.bounds.x1 + dx, s.bounds.y1 + dy,
                     s.bounds.x2 + dx, s.bounds.y2 + dy⟩,
          drag_start_x := event_x, drag_start_y := event_y }
      else if m = "" then s
      else
        let new_y1 := if pyInStr 'n' m then event_y else s.bounds.y1
        let new_y2 := if pyInStr 's' m then event_y else s.bounds.y2
        let new_x1 := if pyInStr 'w' m then event_x else s.bounds.x1
        let new_x2 := if pyInStr 'e' m then event_x else s.bounds.x2
        if MIN_SIZE ≤ new_x2 - new_x1 ∧ MIN_SIZE ≤ new_y2 - new_y1 then
          { s with
            bounds := ⟨new_x1, new_y1, new_x2, new_y2⟩,
            handle_x := new_x1,
            handle_y := new_y1 + (new_y2 - new_y1) * 0.382,
            drag_start_x := event_x, drag_start_y := event_y }
        else s

/-! ## The editor window state and its event handlers -/

/-- The mutable state of `Focus_AreaWindow` relevant to the editor state
machine, together with the host-window attributes the handlers set
(`alpha` for `attributes(-alpha, ...)`, `withdrawn` for
`withdraw`/`deiconify`, `raised`/`focused` for `lift`/`focus_force`). -/
structure EState where
  veil_color : String
  veil_opacity : ℚ
  peek_opacity : ℚ
  peek_through_opacity : ℚ
  is_visible : Bool
  is_transparent_for_editing : Bool
  is_peeking : Bool
  last_user_opacity : ℚ
  show_quick_start_on_startup : Bool
  focus_areas : List Rect
  drawing_rect : Option Rect
  draw_start_x : ℚ
  draw_start_y : ℚ
  alpha : ℚ
  withdrawn : Bool
  raised : Bool
  focused : Bool
deriving DecidableEq, Repr

/-- The state after `Focus_AreaWindow.__init__` (lines 480-494) and
`setup_window` (which pushes `veil_opacity` to the window alpha). -/
def initState : EState where
  veil_color := "#0C0000"
  veil_opacity := 1
  peek_opacity := 0.3
  peek_through_opacity := 0.55
  is_visible := true
  is_transparent_for_editing := false
  is_peeking := false
  last_user_opacity := 1
  show_quick_start_on_startup := true
  focus_areas := []
  drawing_rect := none
  draw_start_x := 0
  draw_start_y := 0
  alpha := 1
  withdrawn := false
  raised := true
  focused := true

/-- `Focus_AreaWindow.update_opacity` (lines 801-805). -/
def update_opacity (s : EState) : EState :=
  let s1 := { s with last_user_opacity := s.veil_opacity }
  if s1.is_peeking = false ∧ s1.is_transparent_for_editing = false then
    { s1 with alpha := s1.veil_opacity }
  else s1

/-- `Focus_AreaWindow.set_transparent_for_editing` (lines 789-799). -/
def set_transparent_for_editing (s : EState) (transparent : Bool) : EState :=
  let s1 := { s with is_transparent_for_editing := transparent }
  if transparent then { s1 with alpha := s1.peek_opacity }
  else if s1.is_peeking = false then update_opacity s1
  else s1

/-- `Focus_AreaWindow.on_shift_press` (lines 758-765). -/
def on_shift_press (s : EState) : EState :=
  if s.is_peeking = false ∧ s.is_visible = true then
    let s1 := { s with is_peeking := true }
    if s1.peek_through_opacity < s1.veil_opacity then
      { s1 with alpha := s1.peek_through_opacity }
    else s1
  else s

/-- `Focus_AreaWindow.on_shift_release` (lines 767-774). -/
def on_shift_release (s : EState) : EState :=
  if s.is_peeking = true then
    let s1 := { s with is_peeking := false }
    if s1.is_transparent_for_editing = false then
      { s1 with alpha := s1.veil_opacity }
    else s1
  else s

/-- `Focus_AreaWindow.on_pause_shortcut` (lines 776-787): pauses when
visible, does nothing otherwise. -/
def on_pause_shortcut (s : EState) : EState :=
  if s.is_visible = true then
    { s with is_visible := false, withdrawn := true }
  else s

/-- `Focus_AreaWindow.toggle_pause` (lines 807-830): flips `is_visible`;
on resume it re-applies `veil_opacity`, deiconifies, lifts and refocuses
the window, on pause it withdraws the window. -/
def toggle_pause (s : EState) : EState :=
  let s1 := { s with is_visible := !s.is_visible }
  if s1.is_visible then
    { s1 with alpha := s1.veil_opacity, withdrawn := false,
              raised := true, focused := true }
  else
    { s1 with withdrawn := true }

/-- The canvas double-click binding `<Double-Button-1>` (line 563) invokes
`toggle_pause` directly. -/
def on_double_click (s : EState) : EState := toggle_pause s

/-- The tray Show/Hide and Pause/Resume entries (lines 658-664) both post
`toggle_pause` onto the UI thread. -/
def tray_toggle (s : EState) : EState := toggle_pause s

/-- The `find_overlapping` guard of `on_canvas_press` (lines 682-687): the
press lands on an existing focus area rectangle or on a move handle.  The
handle oval of an area sits at the golden-ratio point of its left edge with
radius `move_handle_size`. -/
def overlaps_existing (s : EState) (x y : ℚ) : Bool :=
  s.focus_areas.any fun r =>
    (decide (r.x1 ≤ x) && decide (x ≤ r.x2) &&
     decide (r.y1 ≤ y) && decide (y ≤ r.y2)) ||
    (let hy := r.y1 + (r.y2 - r.y1) * 0.382
     decide (r.x1 - move_handle_size ≤ x) && decide (x ≤ r.x1 + move_handle_size) &&
     decide (hy - move_handle_size ≤ y) && decide (y ≤ hy + move_handle_size))

/-- `Focus_AreaWindow.on_canvas_press` (lines 678-692): if the press hits an
existing area or handle nothing happens, otherwise the draw anchor is
recorded and editing-peek transparency is applied. -/
def on_canvas_press (s : EState) (x y : ℚ) : EState :=
  if overlaps_existing s x y then s
  else
    let s1 := { s with draw_start_x := x, draw_start_y := y }
    set_transparent_for_editing s1 true

/-- `Focus_AreaWindow.on_canvas_drag` (lines 694-713): with the idle sentinel
anchor `(0, 0)` the event is ignored; otherwise the preview rectangle is
replaced by the normalized box of the anchor and the pointer. -/
def on_canvas_drag (s : EState) (x y : ℚ) : EState :=
  if s.draw_start_x = 0 ∧ s.draw_start_y = 0 then s
  else
    { s with drawing_rect := some ⟨min s.draw_start_x x, min s.draw_start_y y,
                                   max s.draw_start_x x, max s.draw_start_y y⟩ }

/-- `Focus_AreaWindow.on_canvas_release` (lines 715-744): with the sentinel
anchor the event is ignored entirely.  Otherwise, when a preview rectangle
exists, the normalized box of the anchor and the release pointer becomes a
new `FocusArea` (its rectangle item is created at
`(x1, y1, x1+width, y1+height)`) provided both sides are at least
`MIN_SIZE`; then the anchor is reset and editing-peek transparency ends. -/
def on_canvas_release (s : EState) (x y : ℚ) : EState :=
  if s.draw_start_x = 0 ∧ s.draw_start_y = 0 then s
  else
    let s1 :=
      match s.drawing_rect with
      | none => s
      | some _ =>
        let x1 := min s.draw_start_x x
        let y1 := min s.draw_start_y y
        let x2 := max s.draw_start_x x
        let y2 := max s.draw_start_y y
        let width := x2 - x1
        let height := y2 - y1
        let s2 := { s with drawing_rect := none }
        if MIN_SIZE ≤ width ∧ MIN_SIZE ≤ height then
          { s2 with focus_areas :=
              s2.focus_areas ++ [Rect.mk x1 y1 (x1 + width) (y1 + height)] }
        else s2
    let s3 := { s1 with draw_start_x := 0, draw_start_y := 0 }
    set_transparent_for_editing s3 false

/-- Fold a list of drag events over the state. -/
def run_drags (s : EState) (ds : List (ℚ × ℚ)) : EState :=
  ds.foldl (fun t p => on_canvas_drag t p.1 p.2) s

/-- A complete draw gesture: a canvas press, a sequence of drag events, and
the release. -/
def draw_gesture (s : EState) (px py : ℚ) (ds : List (ℚ × ℚ)) (rx ry : ℚ) :
    EState :=
  on_canvas_release (run_drags (on_canvas_press s px py) ds) rx ry

/-- Modelled from the spec (section 4.3): the pure effective-opacity
resolution function the specification describes, `EditingPeek →
editingPeekOpacity, else ShiftPeek → peekThroughOpacity, else veilOpacity`.
The source has no such single function; this definition exists to be
compared with what the handlers actually apply. -/
def effectiveOpacitySpec (s : EState) : ℚ :=
  if s.is_transparent_for_editing then s.peek_opacity
  else if s.is_peeking then s.peek_through_opacity
  else s.veil_opacity

/-! ## Config persistence -/

/-- A JSON value as `json.load` produces it. -/
inductive JVal where
  | num (q : ℚ)
  | str (v : String)
  | bool (b : Bool)
  | null
  | arr (elems : List JVal)
  | obj (entries : List (String × JVal))
deriving Repr

/-- The slice of editor state that `save_config`/`load_config` read and
write.  `load_config` assigns the raw parsed values to the scalar
attributes, so those fields hold JSON values; the focus-area collection
holds the rectangles of the created `FocusArea` objects. -/
structure CfgState where
  veil_color : JVal
  veil_opacity : JVal
  peek_through_opacity : JVal
  show_quick_start_on_startup : JVal
  focus_areas : List Rect

/-- `dict.get(key, default)`. -/
def jget (entries : List (String × JVal)) (key : String) (dflt : JVal) : JVal :=
  match entries.lookup key with
  | some v => v
  | none => dflt

/-- Python numeric coercion as used by `-` and `+` on coordinates: numbers
are themselves, booleans are 0 or 1, everything else is not a number. -/
def pyToQ : JVal → Option ℚ
  | JVal.num q => some q
  | JVal.bool b => some (if b then 1 else 0)
  | _ => none

/-- Python subtraction `a - b`; `none` models a raised `TypeError`. -/
def pySub (a b : JVal) : Option ℚ :=
  match pyToQ a, pyToQ b with
  | some x, some y => some (x - y)
  | _, _ => none

/-- Python iteration `for v in x`: lists yield their elements, strings their
characters, dicts their keys; numbers, booleans and null raise `TypeError`
(modelled as `none`). -/
def pyIter : JVal → Option (List JVal)
  | JVal.arr l => some l
  | JVal.str v => some (v.data.map fun c => JVal.str (String.mk [c]))
  | JVal.obj l => some (l.map fun e => JVal.str e.1)
  | _ => none

/-- Python `len(x)` for the values iteration can produce. -/
def pyLen : JVal → Option Nat
  | JVal.arr l => some l.length
  | JVal.str v => some v.data.length
  | JVal.obj l => some l.length
  | _ => none

/-- Python destructuring `x1, y1, x2, y2 = coords` for a value of length 4. -/
def unpack4 : JVal → Option (JVal × JVal × JVal × JVal)
  | JVal.arr [a, b, c, d] => some (a, b, c, d)
  | JVal.str v =>
    match v.data with
    | [a, b, c, d] =>
      some (JVal.str (String.mk [a]), JVal.str (String.mk [b]),
            JVal.str (String.mk [c]), JVal.str (String.mk [d]))
    | _ => none
  | JVal.obj [(k1, _), (k2, _), (k3, _), (k4, _)] =>
    some (JVal.str k1, JVal.str k2, JVal.str k3, JVal.str k4)
  | _ => none

/-- The `for coords in config.get('focus_areas', [])` loop of `load_config`
(lines 1431-1437): each length-4 entry is unpacked, `width`/`height` are
computed by Python subtraction, and a `FocusArea` is created at
`(x1, y1, x1+width, y1+height)` and appended immediately.  The boolean
result records whether an exception was raised; areas appended before a
raise are kept. -/
def loadAreas : List JVal → List Rect → List Rect × Bool
  | [], acc => (acc, false)
  | c :: rest, acc =>
    match pyLen c with
    | none => (acc, true)
    | some n =>
      if n = 4 then
        match unpack4 c with
        | none => (acc, true)
        | some (x1v, y1v, x2v, y2v) =>
          match pySub x2v x1v, pySub y2v y1v with
          | some width, some height =>
            match pyToQ x1v, pyToQ y1v with
            | some qx, some qy =>
              loadAreas rest (acc ++ [Rect.mk qx qy (qx + width) (qy + height)])
            | _, _ => (acc, true)
          | _, _ => (acc, true)
      else loadAreas rest acc

/-- `fa.get_coords()` (lines 458-460) as it is serialized: the four canvas
coordinates of the rectangle item. -/
def rect_to_json (r : Rect) : JVal :=
  JVal.arr [JVal.num r.x1, JVal.num r.y1, JVal.num r.x2, JVal.num r.y2]

/-- `Focus_AreaWindow.save_config` (lines 1387-1406): the JSON record written
to the file. -/
def save_config (s : CfgState) : JVal :=
  JVal.obj
    [("veil_color", s.veil_color),
     ("veil_opacity", s.veil_opacity),
     ("peek_through_opacity", s.peek_through_opacity),
     ("show_quick_start_on_startup", s.show_quick_start_on_startup),
     ("focus_areas", JVal.arr (s.focus_areas.map rect_to_json))]

/-- `Focus_AreaWindow.load_config` (lines 1408-1446) for an existing file.
The input is the parse result of the file content: `none` when `json.load`
raises (malformed JSON), otherwise the parsed value.  The boolean result
records whether the handler reported an error (the `except` branch showing
the error dialog).  A non-dict top level raises in the first `config.get`
before any assignment; with a dict, the four scalar attributes are assigned,
the focus-area collection is cleared (`delete_all_focus_areas`), and then
the focus-areas loop runs; an exception mid-way keeps everything assigned
so far. -/
def load_config (content : Option JVal) (s : CfgState) : CfgState × Bool :=
  match content with
  | none => (s, true)
  | some (JVal.obj entries) =>
    let s1 : CfgState :=
      { veil_color := jget entries "veil_color" (JVal.str "#0C0000"),
        veil_opacity := jget entries "veil_opacity" (JVal.num 1),
        peek_through_opacity := jget entries "peek_through_opacity" (JVal.num 0.55),
        show_quick_start_on_startup :=
          jget entries "show_quick_start_on_startup" (JVal.bool true),
        focus_areas := [] }
    match pyIter (jget entries "focus_areas" (JVal.arr [])) with
    | none => (s1, true)
    | some elems =>
      let res := loadAreas elems []
      ({ s1 with focus_areas := res.1 }, res.2)
  | some _ => (s, true)

/-- A focus area as in testable-properties Scenario A of the specification:
rectangle `(100,100)-(300,250)`, mid-drag in resize mode "se". -/
def faA : FAState where
  bounds := ⟨100, 100, 300, 250⟩
  handle_x := 100
  handle_y := 100 + 150 * 0.382
  drag_start_x := 300
  drag_start_y := 250
  is_dragging := true
  resize_mode := some "se"

/-- The state of `faA` after the committed Scenario A resize to `(130,110)`. -/
def faA_committed : FAState where
  bounds := ⟨100, 100, 130, 110⟩
  handle_x := 100
  handle_y := 100 + (110 - 100) * 0.382
  drag_start_x := 130
  drag_start_y := 110
  is_dragging := true
  resize_mode := some "se"

/-- The Paused initial state. -/
def pausedState : EState :=
  { initState with is_visible := false, withdrawn := true }

/-- The state Paused with Shift peek still active (reachable by pausing with
a double-click while Shift is held: the Shift release is then delivered to
the withdrawn window, so `is_peeking` stays true). -/
def pausedPeekState : EState :=
  { initState with is_visible := false, withdrawn := true, is_peeking := true }

/-- A concrete config slice with two focus areas. -/
def cfgA : CfgState where
  veil_color := JVal.str "#102030"
  veil_opacity := JVal.num 0.8
  peek_through_opacity := JVal.num 0.4
  show_quick_start_on_startup := JVal.bool false
  focus_areas := [⟨10, 20, 110, 220⟩, ⟨300, 300, 450, 420⟩]

/-- A concrete config slice differing from `cfgA` in every field. -/
def cfgB : CfgState where
  veil_color := JVal.str "#FFFFFF"
  veil_opacity := JVal.num 0.5
  peek_through_opacity := JVal.num 0.25
  show_quick_start_on_startup := JVal.bool true
  focus_areas := [⟨0, 0, 100, 100⟩]

/-- A JSON-parseable but malformed config: `focus_areas` is the number 5,
which is not iterable. -/
def badContent : Option JVal := some (JVal.obj [("focus_areas", JVal.num 5)])

/-! ## Theorems -/

/-- Claim C7: for every rectangle, the hit-test classify function applied to
the computed handle centre `(x1, y1 + 0.382*height)` returns "move",
regardless of proximity to the edges, because the move-handle zone is
checked before the edge and corner checks. -/
theorem c7_handle_center_is_move (r : Rect) :
    get_resize_mode r r.x1 (r.y1 + (r.y2 - r.y1) * 0.382) = "move" := by
  simp only [get_resize_mode]
  rw [if_pos]
  refine ⟨?_, ?_, ?_⟩
  · rw [sub_self, abs_zero]
    norm_num [resize_handle_size]
  · rw [move_handle_size]
    linarith
  · rw [move_handle_size]
    linarith

/-- Closed instance of claim C7 at a concrete rectangle. -/
theorem c7_handle_center_is_move_witness :
    get_resize_mode ⟨0, 0, 50, 50⟩ 0 (0 + (50 - 0) * 0.382) = "move" :=
  c7_handle_center_is_move ⟨0, 0, 50, 50⟩

/-- For a focus area mid-drag in one of the eight resize modes, `on_drag`
applies the pointer to the edges named by the mode letters and commits
exactly under the minimum-size condition; otherwise it is the identity. -/
theorem fa_on_drag_resize_spec (s : FAState) (m : String) (ex ey : ℚ)
    (hdrag : s.is_dragging = true) (hmode : s.resize_mode = some m)
    (hm : m = "n" ∨ m = "s" ∨ m = "e" ∨ m = "w" ∨
          m = "ne" ∨ m = "nw" ∨ m = "se" ∨ m = "sw") :
    fa_on_drag s ex ey =
      (let new_y1 := if pyInStr 'n' m then ey else s.bounds.y1
       let new_y2 := if pyInStr 's' m then ey else s.bounds.y2
       let new_x1 := if pyInStr 'w' m then ex else s.bounds.x1
       let new_x2 := if pyInStr 'e' m then ex else s.bounds.x2
       if MIN_SIZE ≤ new_x2 - new_x1 ∧ MIN_SIZE ≤ new_y2 - new_y1 then
         { s with
           bounds := Rect.mk new_x1 new_y1 new_x2 new_y2,
           handle_x := new_x1,
           handle_y := new_y1 + (new_y2 - new_y1) * 0.382,
           drag_start_x := ex, drag_start_y := ey }
       else s) := by
  rcases hm with h | h | h | h | h | h | h | h <;> subst h <;>
    simp [fa_on_drag, hdrag, hmode]

/-- Claim C1: for a focus area mid-drag in a resize mode, the drag step
applies the pointer coordinate to the edges named by the mode letters
("n" sets y1, "s" sets y2, "w" sets x1, "e" sets x2) and commits exactly
when the resulting width and height are both at least `MIN_SIZE`; when
either is smaller the step leaves the whole state, in particular the
bounds, unchanged. -/
theorem c1_resize_minsize (s : FAState) (m : String) (ex ey : ℚ)
    (hdrag : s.is_dragging = true) (hmode : s.resize_mode = some m)
    (hm : m = "n" ∨ m = "s" ∨ m = "e" ∨ m = "w" ∨
          m = "ne" ∨ m = "nw" ∨ m = "se" ∨ m = "sw") :
    fa_on_drag s ex ey =
      (let new_y1 := if pyInStr 'n' m then ey else s.bounds.y1
       let new_y2 := if pyInStr 's' m then ey else s.bounds.y2
       let new_x1 := if pyInStr 'w' m then ex else s.bounds.x1
       let new_x2 := if pyInStr 'e' m then ex else s.bounds.x2
       if MIN_SIZE ≤ new_x2 - new_x1 ∧ MIN_SIZE ≤ new_y2 - new_y1 then
         { s with
           bounds := Rect.mk new_x1 new_y1 new_x2 new_y2,
           handle_x := new_x1,
           handle_y := new_y1 + (new_y2 - new_y1) * 0.382,
           drag_start_x := ex, drag_start_y := ey }
       else s) :=
  fa_on_drag_resize_spec s m ex ey hdrag hmode hm

/-- Closed instance of claim C1, following Scenario A of the specification:
resize "se" of `(100,100)-(300,250)` to pointer `(130,110)` commits
`(100,100)-(130,110)` (width 30, height 10 = MIN_SIZE), and a further drag
to `(105,108)` is rejected (height 8 < 10), leaving bounds unchanged. -/
theorem c1_resize_minsize_witness :
    faA.is_dragging = true ∧
    (fa_on_drag faA 130 110).bounds = ⟨100, 100, 130, 110⟩ ∧
    fa_on_drag (fa_on_drag faA 130 110) 105 108 = fa_on_drag faA 130 110 := by
  have he : pyInStr 'e' "se" = true := by decide
  have hs : pyInStr 's' "se" = true := by decide
  have hn : pyInStr 'n' "se" = false := by decide
  have hw : pyInStr 'w' "se" = false := by decide
  have hb1 : fa_on_drag faA 130 110 = faA_committed := by
    rw [c1_resize_minsize faA "se" 130 110 rfl rfl (by simp)]
    simp [he, hs, hn, hw, faA, faA_committed]
    norm_num [MIN_SIZE]
  have hb2 : fa_on_drag faA_committed 105 108 = faA_committed := by
    rw [c1_resize_minsize faA_committed "se" 105 108 rfl rfl (by simp)]
    simp [he, hs, hn, hw, faA_committed]
    norm_num [MIN_SIZE]
  exact ⟨rfl, by rw [hb1]; rfl, by rw [hb1, hb2]⟩

/-- Claim C9: after a committed resize, the recomputed move-handle centre
sits at `(x1, y1 + 0.382*(y2-y1))` of the new bounds. -/
theorem c9_handle_after_resize (s : FAState) (m : String) (ex ey : ℚ)
    (hdrag : s.is_dragging = true) (hmode : s.resize_mode = some m)
    (hm : m = "n" ∨ m = "s" ∨ m = "e" ∨ m = "w" ∨
          m = "ne" ∨ m = "nw" ∨ m = "se" ∨ m = "sw")
    (hok : MIN_SIZE ≤ (if pyInStr 'e' m then ex else s.bounds.x2) -
             (if pyInStr 'w' m then ex else s.bounds.x1) ∧
           MIN_SIZE ≤ (if pyInStr 's' m then ey else s.bounds.y2) -
             (if pyInStr 'n' m then ey else s.bounds.y1)) :
    (fa_on_drag s ex ey).handle_x = (fa_on_drag s ex ey).bounds.x1 ∧
    (fa_on_drag s ex ey).handle_y = (fa_on_drag s ex ey).bounds.y1 +
      ((fa_on_drag s ex ey).bounds.y2 - (fa_on_drag s ex ey).bounds.y1) * 0.382 := by
  rcases hm with h | h | h | h | h | h | h | h <;> subst h <;>
    rw [fa_on_drag_resize_spec s _ ex ey hdrag hmode (by simp)] <;>
    simp only [if_pos hok] <;> simp

/-- Closed instance of claim C9 at the Scenario A resize. -/
theorem c9_handle_after_resize_witness :
    (fa_on_drag faA 130 110).handle_x = (fa_on_drag faA 130 110).bounds.x1 ∧
    (fa_on_drag faA 130 110).handle_y = (fa_on_drag faA 130 110).bounds.y1 +
      ((fa_on_drag faA 130 110).bounds.y2 - (fa_on_drag faA 130 110).bounds.y1)
        * 0.382 :=
  c9_handle_after_resize faA "se" 130 110 rfl rfl (by simp)
    (by norm_num [MIN_SIZE, show pyInStr 'e' "se" = true from by decide,
          show pyInStr 's' "se" = true from by decide,
          show pyInStr 'n' "se" = false from by decide,
          show pyInStr 'w' "se" = false from by decide, faA])

/-- Claim C8: Shift press while visible and not already peeking enters peek
mode and lowers the applied alpha to `peek_through_opacity` exactly when it
is below `veil_opacity` (otherwise the applied alpha is unchanged); a Shift
release then restores `veil_opacity` when no draw gesture is in progress.
With `veil_opacity = 1` and `peek_through_opacity = 0.55` the press applies
`0.55` and the release restores `1`. -/
theorem c8_shift_peek (s : EState)
    (hp : s.is_peeking = false) (hv : s.is_visible = true)
    (he : s.is_transparent_for_editing = false) :
    (on_shift_press s).is_peeking = true ∧
    (on_shift_press s).alpha =
      (if s.peek_through_opacity < s.veil_opacity then s.peek_through_opacity
       else s.alpha) ∧
    (on_shift_release (on_shift_press s)).alpha = s.veil_opacity ∧
    (s.veil_opacity = 1 → s.peek_through_opacity = 0.55 →
      (on_shift_press s).alpha = 0.55 ∧
      (on_shift_release (on_shift_press s)).alpha = 1) := by
  by_cases hlt : s.peek_through_opacity < s.veil_opacity
  · simp [on_shift_press, on_shift_release, hp, hv, he, hlt]
    intro h1 h2
    exact ⟨h2, h1⟩
  · simp [on_shift_press, on_shift_release, hp, hv, he, hlt]
    intro h1 h2
    rw [h1, h2] at hlt
    norm_num at hlt

/-- Closed instance of claim C8 at the initial state (Scenario C of the
specification): `veil_opacity = 1`, `peek_through_opacity = 0.55`. -/
theorem c8_shift_peek_witness :
    initState.is_peeking = false ∧
    (on_shift_press initState).alpha = 0.55 ∧
    (on_shift_release (on_shift_press initState)).alpha = 1 :=
  ⟨rfl, (c8_shift_peek initState rfl rfl rfl).2.2.2 rfl rfl⟩

/-- Counterexample to claim C4 as stated: from Paused, the pause keyboard
shortcut does not transition to Visible (it is a complete no-op, matching
its docstring "Only pauses - does not toggle"); and on resume `toggle_pause`
applies `veil_opacity` rather than the resolved effective opacity (with
peek still active the resolution gives `0.55` but `1` is applied). -/
theorem c4_counterexample :
    (on_pause_shortcut pausedState = pausedState ∧
      pausedState.is_visible = false) ∧
    ((toggle_pause pausedPeekState).alpha = 1 ∧
      effectiveOpacitySpec pausedPeekState = 0.55 ∧
      (toggle_pause pausedPeekState).alpha ≠
        effectiveOpacitySpec pausedPeekState) := by
  refine ⟨⟨?_, rfl⟩, ?_, ?_, ?_⟩
  · simp [on_pause_shortcut, pausedState, initState]
  · simp [toggle_pause, pausedPeekState, initState]
  · simp [effectiveOpacitySpec, pausedPeekState, initState]
  · simp [toggle_pause, effectiveOpacitySpec, pausedPeekState, initState]
    norm_num

/-- Claim C4 as amended: the canvas double-click and the tray toggle invoke
`toggle_pause`, which toggles visibility — Visible becomes Paused with the
window withdrawn, Paused becomes Visible with the window shown, raised,
refocused and the veil opacity re-applied.  The pause keyboard shortcut
only pauses: from Visible it withdraws the window, from Paused it is a
no-op. -/
theorem c4_amended (s : EState) :
    (on_double_click s = toggle_pause s ∧ tray_toggle s = toggle_pause s) ∧
    (s.is_visible = false →
      toggle_pause s = { s with is_visible := true, withdrawn := false,
                                raised := true, focused := true,
                                alpha := s.veil_opacity }) ∧
    (s.is_visible = true →
      toggle_pause s = { s with is_visible := false, withdrawn := true }) ∧
    (s.is_visible = true →
      on_pause_shortcut s = { s with is_visible := false, withdrawn := true }) ∧
    (s.is_visible = false → on_pause_shortcut s = s) := by
  refine ⟨⟨rfl, rfl⟩, ?_, ?_, ?_, ?_⟩ <;> intro h <;>
    simp [toggle_pause, on_pause_shortcut, h]

/-- Closed instance of the amended claim C4: toggling from Paused resumes,
toggling from Visible pauses, and the shortcut from Paused is a no-op. -/
theorem c4_amended_witness :
    pausedState.is_visible = false ∧
    (toggle_pause pausedState).is_visible = true ∧
    (toggle_pause initState).is_visible = false ∧
    on_pause_shortcut pausedState = pausedState := by
  have h := c4_amended pausedState
  have h2 := c4_amended initState
  refine ⟨rfl, ?_, ?_, h.2.2.2.2 rfl⟩
  · rw [h.2.1 rfl]
  · rw [h2.2.2.1 rfl]

/-- Counterexample to claim C3 as stated: starting a draw gesture and then
pressing Shift mid-gesture leaves the editor with both EditingPeek and
ShiftPeek active but the applied alpha equal to `peek_through_opacity`
(0.55), not the editing-peek opacity (0.30) the resolution function
prescribes. -/
theorem c3_counterexample :
    (on_shift_press (on_canvas_press initState 10 10)).is_transparent_for_editing
        = true ∧
    (on_shift_press (on_canvas_press initState 10 10)).is_peeking = true ∧
    (on_shift_press (on_canvas_press initState 10 10)).alpha = 0.55 ∧
    effectiveOpacitySpec (on_shift_press (on_canvas_press initState 10 10))
        = 0.3 ∧
    (on_shift_press (on_canvas_press initState 10 10)).alpha ≠
      effectiveOpacitySpec (on_shift_press (on_canvas_press initState 10 10)) := by
  have hpress : on_canvas_press initState 10 10 =
      { initState with draw_start_x := 10, draw_start_y := 10,
                       is_transparent_for_editing := true, alpha := 0.3 } := by
    simp [on_canvas_press, overlaps_existing, set_transparent_for_editing,
      initState]
  have hshift : on_shift_press (on_canvas_press initState 10 10) =
      { initState with draw_start_x := 10, draw_start_y := 10,
                       is_transparent_for_editing := true, is_peeking := true,
                       alpha := 0.55 } := by
    rw [hpress]
    simp [on_shift_press, initState]
    norm_num
  rw [hshift]
  refine ⟨rfl, rfl, rfl, by simp [effectiveOpacitySpec, initState], ?_⟩
  simp [effectiveOpacitySpec, initState]
  norm_num

/-- Claim C3 as amended: starting a draw gesture applies the editing-peek
opacity (`peek_opacity`, 0.30) unconditionally, so EditingPeek takes
precedence over an already-active ShiftPeek at gesture start; but the
applied opacity is not a pure function of the state: a Shift press arriving
while a draw gesture is in progress overwrites the applied alpha with
`peek_through_opacity` whenever that is below `veil_opacity`. -/
theorem c3_amended (s : EState) (px py : ℚ)
    (hhit : overlaps_existing s px py = false) :
    ((on_canvas_press s px py).is_transparent_for_editing = true ∧
     (on_canvas_press s px py).alpha = s.peek_opacity) ∧
    (s.is_transparent_for_editing = true → s.is_peeking = false →
     s.is_visible = true → s.peek_through_opacity < s.veil_opacity →
     (on_shift_press s).alpha = s.peek_through_opacity) := by
  refine ⟨?_, ?_⟩
  · simp [on_canvas_press, set_transparent_for_editing, hhit]
  · intro _ hp hv hlt
    simp [on_shift_press, hp, hv, hlt]

/-- Closed instance of the amended claim C3: pressing the canvas while Shift
peek is active still applies the 0.30 editing opacity, and a Shift press
in a state that is mid-gesture applies 0.55. -/
theorem c3_amended_witness :
    (on_canvas_press (on_shift_press initState) 10 10).alpha = 0.3 ∧
    (on_shift_press
      { initState with is_transparent_for_editing := true, alpha := 0.3 }).alpha
      = 0.55 := by
  have h1 := c3_amended (on_shift_press initState) 10 10
    (by simp [on_shift_press, overlaps_existing, initState]; norm_num)
  have h2 := c3_amended
    { initState with is_transparent_for_editing := true, alpha := 0.3 } 10 10
    (by simp [overlaps_existing, initState])
  refine ⟨?_, ?_⟩
  · rw [h1.1.2]
    simp [on_shift_press, initState]
    norm_num
  · rw [h2.2 rfl rfl rfl (by simp [initState]; norm_num)]
    rfl

/-- A canvas drag never changes the draw anchor or the focus-area
collection, only the preview rectangle. -/
theorem on_canvas_drag_fields (t : EState) (x y : ℚ) :
    (on_canvas_drag t x y).draw_start_x = t.draw_start_x ∧
    (on_canvas_drag t x y).draw_start_y = t.draw_start_y ∧
    (on_canvas_drag t x y).focus_areas = t.focus_areas := by
  unfold on_canvas_drag
  split <;> exact ⟨rfl, rfl, rfl⟩

/-- A sequence of drags never changes the draw anchor or the focus-area
collection. -/
theorem run_drags_fields (ds : List (ℚ × ℚ)) (t : EState) :
    (run_drags t ds).draw_start_x = t.draw_start_x ∧
    (run_drags t ds).draw_start_y = t.draw_start_y ∧
    (run_drags t ds).focus_areas = t.focus_areas := by
  induction ds generalizing t with
  | nil => exact ⟨rfl, rfl, rfl⟩
  | cons d rest ih =>
    have h1 := on_canvas_drag_fields t d.1 d.2
    have h2 := ih (on_canvas_drag t d.1 d.2)
    exact ⟨h2.1.trans h1.1, h2.2.1.trans h1.2.1, h2.2.2.trans h1.2.2⟩

/-- With the sentinel anchor `(0, 0)`, a drag is a complete no-op. -/
theorem on_canvas_drag_sentinel (t : EState) (x y : ℚ)
    (h1 : t.draw_start_x = 0) (h2 : t.draw_start_y = 0) :
    on_canvas_drag t x y = t := by
  unfold on_canvas_drag
  rw [if_pos ⟨h1, h2⟩]

/-- With the sentinel anchor `(0, 0)`, any sequence of drags is a no-op. -/
theorem run_drags_sentinel (ds : List (ℚ × ℚ)) (t : EState)
    (h1 : t.draw_start_x = 0) (h2 : t.draw_start_y = 0) :
    run_drags t ds = t := by
  induction ds generalizing t with
  | nil => rfl
  | cons d rest ih =>
    show run_drags (on_canvas_drag t d.1 d.2) rest = t
    rw [on_canvas_drag_sentinel t d.1 d.2 h1 h2, ih t h1 h2]

/-- With a non-sentinel anchor, every drag replaces the preview rectangle,
so after at least one drag a preview rectangle exists. -/
theorem run_drags_rect (ds : List (ℚ × ℚ)) (t : EState)
    (hanchor : ¬(t.draw_start_x = 0 ∧ t.draw_start_y = 0))
    (h : (∃ r0, t.drawing_rect = some r0) ∨ ds ≠ []) :
    ∃ r, (run_drags t ds).drawing_rect = some r := by
  induction ds generalizing t with
  | nil =>
    rcases h with ⟨r0, hr⟩ | hne
    · exact ⟨r0, hr⟩
    · exact absurd rfl hne
  | cons d rest ih =>
    show ∃ r, (run_drags (on_canvas_drag t d.1 d.2) rest).drawing_rect = some r
    have hd : on_canvas_drag t d.1 d.2 =
        { t with drawing_rect := some ⟨min t.draw_start_x d.1, min t.draw_start_y d.2,
                                       max t.draw_start_x d.1, max t.draw_start_y d.2⟩ } := by
      unfold on_canvas_drag
      rw [if_neg hanchor]
    refine ih (on_canvas_drag t d.1 d.2) ?_ (Or.inl ?_)
    · rw [hd]
      exact hanchor
    · rw [hd]
      exact ⟨_, rfl⟩

/-- `set_transparent_for_editing` only touches the transparency fields,
never the focus-area collection. -/
theorem set_transparent_focus_areas (t : EState) (b : Bool) :
    (set_transparent_for_editing t b).focus_areas = t.focus_areas := by
  unfold set_transparent_for_editing update_opacity
  simp [apply_ite EState.focus_areas]

/-- A canvas press that does not hit an existing area records the anchor and
enters editing-peek; only those fields change. -/
theorem on_canvas_press_eq (s : EState) (px py : ℚ)
    (hhit : overlaps_existing s px py = false) :
    on_canvas_press s px py =
      { s with draw_start_x := px, draw_start_y := py,
               is_transparent_for_editing := true, alpha := s.peek_opacity } := by
  unfold on_canvas_press set_transparent_for_editing
  rw [if_neg (by rw [hhit]; exact Bool.false_ne_true)]
  rfl

/-- Counterexample to claim C2 as stated: a draw gesture pressed exactly at
`(0,0)` on an empty canvas, dragged to `(100,100)` and released there has a
normalized preview of width and height 100 ≥ MIN_SIZE, yet zero FocusAreas
are appended, because `(0,0)` is the idle sentinel. -/
theorem c2_counterexample :
    (MIN_SIZE ≤ max (0:ℚ) 100 - min (0:ℚ) 100 ∧
     MIN_SIZE ≤ max (0:ℚ) 100 - min (0:ℚ) 100) ∧
    (draw_gesture initState 0 0 [(100, 100)] 100 100).focus_areas = [] := by
  constructor
  · norm_num [MIN_SIZE]
  · have hp : on_canvas_press initState 0 0 =
        { initState with draw_start_x := 0, draw_start_y := 0,
                         is_transparent_for_editing := true, alpha := 0.3 } :=
      on_canvas_press_eq initState 0 0 (by simp [overlaps_existing, initState])
    unfold draw_gesture
    rw [hp, run_drags_sentinel _ _ rfl rfl]
    unfold on_canvas_release
    rw [if_pos ⟨rfl, rfl⟩]
    rfl

/-- Claim C2 as amended: for a completed draw gesture (press not hitting an
existing area, at least one drag, then release) whose anchor is not the
sentinel `(0,0)`, exactly one FocusArea with the normalized bounds of the
anchor and the release pointer is appended when that rectangle has width
and height at least `MIN_SIZE`, and zero are appended otherwise.  A gesture
anchored exactly at `(0,0)` never appends (see the counterexample). -/
theorem c2_amended (s : EState) (px py rx ry : ℚ) (ds : List (ℚ × ℚ))
    (hhit : overlaps_existing s px py = false)
    (hanchor : ¬(px = 0 ∧ py = 0)) (hds : ds ≠ []) :
    (draw_gesture s px py ds rx ry).focus_areas =
      s.focus_areas ++
        (if MIN_SIZE ≤ max px rx - min px rx ∧ MIN_SIZE ≤ max py ry - min py ry
         then [Rect.mk (min px rx) (min py ry) (max px rx) (max py ry)]
         else []) := by
  have hp := on_canvas_press_eq s px py hhit
  set t := on_canvas_press s px py with ht
  have htx : t.draw_start_x = px := by rw [hp]
  have hty : t.draw_start_y = py := by rw [hp]
  have htf : t.focus_areas = s.focus_areas := by rw [hp]
  set u := run_drags t ds with hu
  have hux : u.draw_start_x = px := ((run_drags_fields ds t).1).trans htx
  have huy : u.draw_start_y = py := ((run_drags_fields ds t).2.1).trans hty
  have huf : u.focus_areas = s.focus_areas :=
    ((run_drags_fields ds t).2.2).trans htf
  obtain ⟨r, hur⟩ := run_drags_rect ds t
    (by rw [htx, hty]; exact hanchor) (Or.inr hds)
  show (on_canvas_release u rx ry).focus_areas = _
  unfold on_canvas_release
  rw [hux, huy, if_neg hanchor, hur]
  rw [set_transparent_focus_areas]
  by_cases hsz : MIN_SIZE ≤ max px rx - min px rx ∧
      MIN_SIZE ≤ max py ry - min py ry
  · rw [if_pos hsz, if_pos hsz]
    simp only [huf]
    congr 2
    ring_nf
  · rw [if_neg hsz, if_neg hsz]
    simp [huf]

/-- Closed instance of the amended claim C2: a gesture from `(20,30)` with a
drag, released at `(220,180)`, appends exactly the rectangle
`(20,30)-(220,180)`. -/
theorem c2_amended_witness :
    (¬((20:ℚ) = 0 ∧ (30:ℚ) = 0)) ∧
    (draw_gesture initState 20 30 [(80, 90)] 220 180).focus_areas =
      [⟨20, 30, 220, 180⟩] := by
  have h := c2_amended initState 20 30 220 180 [(80, 90)]
    (by simp [overlaps_existing, initState]) (by norm_num) (by simp)
  refine ⟨by norm_num, ?_⟩
  rw [h]
  norm_num [MIN_SIZE, initState]

/-- Claim C10: a canvas press at exactly `(0,0)` on an empty canvas leaves
the anchor equal to the idle sentinel while entering editing-peek; every
subsequent drag is then a complete no-op (no preview rectangle appears),
and the release is a complete no-op too: no FocusArea is created no matter
how far the pointer travelled, and the end-of-gesture step is skipped, so
the editor stays in the editing-peek opacity state. -/
theorem c10_zero_sentinel (s : EState) (ds : List (ℚ × ℚ)) (rx ry : ℚ)
    (hhit : overlaps_existing s 0 0 = false) (hrect : s.drawing_rect = none)
    (hempty : s.focus_areas = []) :
    (on_canvas_press s 0 0).draw_start_x = 0 ∧
    (on_canvas_press s 0 0).draw_start_y = 0 ∧
    (on_canvas_press s 0 0).is_transparent_for_editing = true ∧
    (on_canvas_press s 0 0).alpha = s.peek_opacity ∧
    (on_canvas_press s 0 0).drawing_rect = none ∧
    run_drags (on_canvas_press s 0 0) ds = on_canvas_press s 0 0 ∧
    on_canvas_release (run_drags (on_canvas_press s 0 0) ds) rx ry =
      on_canvas_press s 0 0 ∧
    (on_canvas_release (run_drags (on_canvas_press s 0 0) ds) rx ry).focus_areas
      = [] ∧
    (on_canvas_release (run_drags (on_canvas_press s 0 0) ds) rx
        ry).is_transparent_for_editing = true := by
  have hp := on_canvas_press_eq s 0 0 hhit
  have hx : (on_canvas_press s 0 0).draw_start_x = 0 := by rw [hp]
  have hy : (on_canvas_press s 0 0).draw_start_y = 0 := by rw [hp]
  have hdrags := run_drags_sentinel ds (on_canvas_press s 0 0) hx hy
  have hrel : on_canvas_release (on_canvas_press s 0 0) rx ry =
      on_canvas_press s 0 0 := by
    unfold on_canvas_release
    rw [if_pos ⟨hx, hy⟩]
  refine ⟨hx, hy, by rw [hp], by rw [hp], by rw [hp]; exact hrect,
          hdrags, by rw [hdrags, hrel], ?_, ?_⟩
  · rw [hdrags, hrel, hp]
    exact hempty
  · rw [hdrags, hrel, hp]

/-- Closed instance of claim C10: from the initial state a gesture anchored
at `(0,0)` with a long drag creates nothing and leaves editing-peek on. -/
theorem c10_zero_sentinel_witness :
    initState.drawing_rect = none ∧
    (on_canvas_release (run_drags (on_canvas_press initState 0 0)
        [(50, 60)]) 500 400).focus_areas = [] ∧
    (on_canvas_release (run_drags (on_canvas_press initState 0 0)
        [(50, 60)]) 500 400).is_transparent_for_editing = true := by
  have h := c10_zero_sentinel initState [(50, 60)] 500 400
    (by simp [overlaps_existing, initState]) rfl rfl
  exact ⟨rfl, h.2.2.2.2.2.2.2.1, h.2.2.2.2.2.2.2.2⟩

/-- Reloading the serialized focus-area list recreates exactly the same
rectangles, in order, with no error. -/
theorem loadAreas_round (l : List Rect) (acc : List Rect) :
    loadAreas (l.map rect_to_json) acc = (acc ++ l, false) := by
  induction l generalizing acc with
  | nil => simp [loadAreas]
  | cons r rest ih =>
    simp only [List.map_cons, loadAreas, rect_to_json, pyLen, unpack4, pySub,
      pyToQ, List.length_cons, List.length_nil]
    rw [if_pos trivial,
      show Rect.mk r.x1 r.y1 (r.x1 + (r.x2 - r.x1)) (r.y1 + (r.y2 - r.y1)) = r
        by simp,
      ih (acc ++ [r])]
    simp

/-- Claim C5: saving the configuration and loading it back restores exactly
the same focus-area rectangles (same count, same coordinates) and the same
veil-opacity and peek-through-opacity values, whatever editor state the
load starts from. -/
theorem c5_config_roundtrip (s t : CfgState) :
    load_config (some (save_config s)) t = (s, false) := by
  show (({ veil_color := s.veil_color, veil_opacity := s.veil_opacity,
           peek_through_opacity := s.peek_through_opacity,
           show_quick_start_on_startup := s.show_quick_start_on_startup,
           focus_areas :=
             (loadAreas (s.focus_areas.map rect_to_json) []).1 } : CfgState),
        (loadAreas (s.focus_areas.map rect_to_json) []).2) = (s, false)
  rw [loadAreas_round s.focus_areas []]
  simp

/-- Closed instance of claim C5 at a concrete two-rectangle state. -/
theorem c5_config_roundtrip_witness :
    load_config (some (save_config cfgA)) cfgB = (cfgA, false) :=
  c5_config_roundtrip cfgA cfgB

/-- Counterexample to claim C6 as stated: loading `badContent` over `cfgB`
surfaces an error (the `except` branch runs), yet the in-memory state has
changed — the scalar fields were already assigned their defaults and the
focus-area collection was cleared before the failure, a partial apply. -/
theorem c6_counterexample :
    (load_config badContent cfgB).2 = true ∧
    (load_config badContent cfgB).1 ≠ cfgB := by
  refine ⟨rfl, fun h => ?_⟩
  have h1 : (load_config badContent cfgB).1.veil_color = JVal.str "#0C0000" :=
    rfl
  rw [h] at h1
  have h2 : JVal.str "#FFFFFF" = JVal.str "#0C0000" := h1
  injection h2 with h3
  exact absurd h3 (by decide)

/-- Claim C6 as amended: when the file content is not valid JSON the load
fails, the error is surfaced, and the in-memory state is left entirely
unchanged; but when the content parses to a JSON object with an unusable
field, the error is still surfaced while every scalar field keeps the value
assigned to it before the failure (and the focus-area collection has been
cleared) — a partial apply. -/
theorem c6_malformed_load (s : CfgState) (entries : List (String × JVal)) :
    load_config none s = (s, true) ∧
    ((load_config (some (JVal.obj entries)) s).1.veil_color =
        jget entries "veil_color" (JVal.str "#0C0000") ∧
     (load_config (some (JVal.obj entries)) s).1.veil_opacity =
        jget entries "veil_opacity" (JVal.num 1) ∧
     (load_config (some (JVal.obj entries)) s).1.peek_through_opacity =
        jget entries "peek_through_opacity" (JVal.num 0.55) ∧
     (load_config (some (JVal.obj entries)) s).1.show_quick_start_on_startup =
        jget entries "show_quick_start_on_startup" (JVal.bool true)) := by
  refine ⟨rfl, ?_⟩
  unfold load_config
  cases hp : pyIter (jget entries "focus_areas" (JVal.arr [])) with
  | none => simp [hp]
  | some elems => simp [hp]

/-- Closed instance of the amended claim C6 at `badContent`: error surfaced
and the scalar defaults applied. -/
theorem c6_malformed_load_witness :
    load_config none cfgB = (cfgB, true) ∧
    (load_config badContent cfgB).1.veil_color = JVal.str "#0C0000" := by
  have h := c6_malformed_load cfgB [("focus_areas", JVal.num 5)]
  exact ⟨h.1, h.2.1⟩

end FocusAreaSpec
